import Mathlib

/-!
Verification of the notebook
`Gemma/[Gemma_2]Using_Gemini_and_Gemma_with_RouteLLM.ipynb`.

The repository consists of a single Jupyter notebook whose code cells are a
flat sequence of Python statements and shell commands.  We embed the code
cells as a list of statements (`Stmt`) and give them an execution semantics
parameterised by an `Oracle` describing the behaviour of every external
system the notebook touches (the Colab secret store, process spawning, the
routing library, and the chat-completion endpoint).  Statements the Python
notebook could have contained but does not (try/except handlers, bounded
retries, process kills/terminations/waits, function or class definitions)
are part of the statement language, so that claims about their absence are
not vacuous.  The notebook itself contains no nested control flow at all,
so control statements carrying basic-statement bodies suffice to express
the error handling and retry loops whose absence the claims assert.
-/

namespace RouteLLMNotebook

/-- A chat message, as passed in the `messages` argument of
`client.chat.completions.create`: a role string and a content string. -/
structure ChatMessage where
  role : String
  content : String
deriving DecidableEq, Repr

/-- The arguments of one `client.chat.completions.create` call. -/
structure ChatRequest where
  model : String
  messages : List ChatMessage
deriving DecidableEq, Repr

/-- One element of `response.choices`: it carries a `message`. -/
structure Choice where
  message : ChatMessage
deriving DecidableEq, Repr

/-- The chat response object returned by the routing library: the name of the
model that answered (`response.model`) and the list of choices. -/
structure ChatResponse where
  model : String
  choices : List Choice
deriving DecidableEq, Repr

/-- The right-hand side of an `os.environ[...] = ...` assignment: either the
result of `userdata.get(secretName)` (a Colab secret-store lookup) or a
string literal written in the notebook. -/
inductive EnvValue where
  | fromSecret (secretName : String)
  | literal (value : String)
deriving DecidableEq, Repr

/-- A basic (non-control) statement of a notebook code cell.  The
constructors used by this notebook are `importMod`, `setEnv`, `shell`,
`popen`, `sleep`, `mkController`, `calibrateThreshold`, `chatCreate`,
`printSelectedModel` and `printResponseContent`.  The remaining
constructors (`procKill`, `procTerminate`, `procWait`, `defFun`,
`defClass`) exist in the statement language because Python offers them;
the notebook uses none of them, and several claims assert exactly that. -/
inductive BasicStmt where
  /-- `import name` or `from pkg import name`. -/
  | importMod (name : String)
  /-- `os.environ[envName] = value`. -/
  | setEnv (envName : String) (value : EnvValue)
  /-- A `!cmd` shell escape (pip installs, the Ollama install script, the
  `curl localhost:11434` check). -/
  | shell (cmd : String)
  /-- `varName = subprocess.Popen(cmd, shell=True)`. -/
  | popen (varName : String) (cmd : String)
  /-- `time.sleep(seconds)`. -/
  | sleep (seconds : Nat)
  /-- `varName = Controller(routers=..., strong_model=..., weak_model=...)`. -/
  | mkController (varName : String) (routers : List String)
      (strongModel weakModel : String)
  /-- `!python -m routellm.calibrate_threshold --task calibrate
  --routers ... --strong-model-pct ... --config ...`. -/
  | calibrateThreshold (routers : List String) (strongModelPct : String)
      (config : String)
  /-- `varName = client.chat.completions.create(model=..., messages=...)`. -/
  | chatCreate (varName : String) (model : String)
      (messages : List ChatMessage)
  /-- `print("Selected model: \x7bmodel\x7d\n".format(model=response.model))`. -/
  | printSelectedModel
  /-- `print("Response: \x7bmodel_response\x7d".format(
  model_response=response.choices[0].message.content))`. -/
  | printResponseContent
  /-- `varName.kill()` — absent from the notebook. -/
  | procKill (varName : String)
  /-- `varName.terminate()` — absent from the notebook. -/
  | procTerminate (varName : String)
  /-- `varName.wait()` — absent from the notebook. -/
  | procWait (varName : String)
  /-- `def name(...): ...` — absent from the notebook. -/
  | defFun (name : String)
  /-- `class name: ...` — absent from the notebook. -/
  | defClass (name : String)
deriving DecidableEq, Repr

/-- A statement of a notebook code cell: a basic statement, or one of the
control statements Python offers for failure handling.  The notebook uses
only `basic` statements; `tryExcept` and `retry` are in the language so
that the claims about the absence of error handling and retries are
claims about this notebook rather than artifacts of the embedding. -/
inductive Stmt where
  /-- A basic statement. -/
  | basic (s : BasicStmt)
  /-- `try: body except: handler` — absent from the notebook. -/
  | tryExcept (body handler : List BasicStmt)
  /-- A bounded retry loop (run `body`; on failure try again, up to
  `attempts` further times) — absent from the notebook. -/
  | retry (attempts : Nat) (body : List BasicStmt)
deriving DecidableEq, Repr

/-- The notebook state threaded through execution: the process environment
(an association list, most recent write first), the command of the process
currently bound to the `process` variable, all commands ever passed to
`subprocess.Popen`, the `Controller` arguments bound to `client`, the chat
response bound to `response`, every chat request sent so far, and every
string passed to `print`. -/
structure NBState where
  env : List (String × String)
  processVar : Option String
  spawned : List String
  client : Option (List String × String × String)
  response : Option ChatResponse
  requests : List ChatRequest
  printed : List String
deriving DecidableEq, Repr

/-- The initial notebook state: nothing set, nothing spawned, nothing
printed. -/
def initState : NBState :=
  { env := [], processVar := none, spawned := [], client := none,
    response := none, requests := [], printed := [] }

/-- A failure raised by an external call (or by the Python runtime itself):
a missing Colab secret, a `subprocess.Popen` error, a `Controller`
construction error, a chat-completion API error, a `NameError` from reading
an unbound variable, or an `IndexError` from `choices[0]` on an empty
list. -/
inductive Failure where
  | secretNotFound (name : String)
  | popenError (cmd : String)
  | controllerError
  | apiError (req : ChatRequest)
  | nameError
  | indexError
deriving DecidableEq, Repr

/-- The behaviour of everything external to the notebook: the Colab secret
store (`userdata.get`, `none` meaning the secret is absent and the lookup
raises), whether `subprocess.Popen` succeeds for a command, whether
`Controller` construction succeeds, and the response (if any) the routing
setup returns for a chat request (`none` meaning the call raises).  Shell
escapes (`!cmd`) print to the console and never raise in Jupyter, so they
need no oracle component. -/
structure Oracle where
  userdata : String → Option String
  popenOk : String → Bool
  controllerOk : Bool
  chatResult : ChatRequest → Option ChatResponse

/-- Execute one basic statement.  Mirrors the Python semantics: external
calls consult the oracle and an exception aborts execution with a
`Failure`; a failing `!cmd` shell escape does not raise in Jupyter, it only
prints an exit status that the notebook never reads, so `shell` (and the
shell-escape `calibrateThreshold`) leave the state unchanged. -/
def execBasic (o : Oracle) (st : NBState) : BasicStmt → Except Failure NBState
  | .importMod _ => .ok st
  | .setEnv n (.literal v) => .ok { st with env := (n, v) :: st.env }
  | .setEnv n (.fromSecret s) =>
      match o.userdata s with
      | none => .error (.secretNotFound s)
      | some v => .ok { st with env := (n, v) :: st.env }
  | .shell _ => .ok st
  | .popen v cmd =>
      if o.popenOk cmd then
        .ok { st with
                processVar := if v = "process" then some cmd else st.processVar,
                spawned := st.spawned ++ [cmd] }
      else .error (.popenError cmd)
  | .sleep _ => .ok st
  | .mkController _ routers strong weak =>
      if o.controllerOk then
        .ok { st with client := some (routers, strong, weak) }
      else .error .controllerError
  | .calibrateThreshold _ _ _ => .ok st
  | .chatCreate _ model msgs =>
      match st.client with
      | none => .error .nameError
      | some _ =>
          match o.chatResult ⟨model, msgs⟩ with
          | none => .error (.apiError ⟨model, msgs⟩)
          | some resp =>
              .ok { st with response := some resp,
                            requests := st.requests ++ [⟨model, msgs⟩] }
  | .printSelectedModel =>
      match st.response with
      | none => .error .nameError
      | some r =>
          .ok { st with printed :=
                  st.printed ++ ["Selected model: " ++ r.model ++ "\n"] }
  | .printResponseContent =>
      match st.response with
      | none => .error .nameError
      | some r =>
          match r.choices.head? with
          | none => .error .indexError
          | some c =>
              .ok { st with printed :=
                      st.printed ++ ["Response: " ++ c.message.content] }
  | .procKill _ => .ok st
  | .procTerminate _ => .ok st
  | .procWait _ => .ok st
  | .defFun _ => .ok st
  | .defClass _ => .ok st

/-- Execute a list of basic statements in order, stopping at the first
failure. -/
def execBasicList (o : Oracle) (st : NBState) :
    List BasicStmt → Except Failure NBState
  | [] => .ok st
  | s :: ss =>
      match execBasic o st s with
      | .ok st' => execBasicList o st' ss
      | .error e => .error e

/-- Run a retry loop: attempt the body; on failure try again, up to
`attempts` further times, returning the last failure if all attempts
fail. -/
def execRetry (o : Oracle) (st : NBState) (body : List BasicStmt) :
    Nat → Except Failure NBState
  | 0 => execBasicList o st body
  | n + 1 =>
      match execBasicList o st body with
      | .ok st' => .ok st'
      | .error _ => execRetry o st body n

/-- Execute one statement: basic statements via `execBasic`; a `tryExcept`
runs its handler exactly when its body fails; a `retry` repeats its body
until it succeeds or the attempts are exhausted. -/
def execStmt (o : Oracle) (st : NBState) : Stmt → Except Failure NBState
  | .basic s => execBasic o st s
  | .tryExcept body handler =>
      match execBasicList o st body with
      | .ok st' => .ok st'
      | .error _ => execBasicList o st handler
  | .retry attempts body => execRetry o st body attempts

/-- Execute a list of statements in order, stopping at the first
uncaught failure. -/
def execList (o : Oracle) (st : NBState) : List Stmt → Except Failure NBState
  | [] => .ok st
  | s :: ss =>
      match execStmt o st s with
      | .ok st' => execList o st' ss
      | .error e => .error e

/-- Code cell: `import os / from google.colab import userdata /
os.environ["HF_TOKEN"] = userdata.get("HF_TOKEN") /
os.environ["GEMINI_API_KEY"] = userdata.get("GOOGLE_API_KEY")`. -/
def credentialCell : List Stmt :=
  [ .basic (.importMod "os"),
    .basic (.importMod "google.colab.userdata"),
    .basic (.setEnv "HF_TOKEN" (.fromSecret "HF_TOKEN")),
    .basic (.setEnv "GEMINI_API_KEY" (.fromSecret "GOOGLE_API_KEY")) ]

/-- Code cell: `os.environ["OPENAI_API_KEY"] = "dummy"`. -/
def dummyKeyCell : List Stmt :=
  [ .basic (.setEnv "OPENAI_API_KEY" (.literal "dummy")) ]

/-- Code cell: the two `! pip install` commands. -/
def pipInstallCell : List Stmt :=
  [ .basic (.shell "pip install \"routellm[serve,eval]\""),
    .basic (.shell "pip install -q google-generativeai") ]

/-- Code cell: `!curl https://ollama.ai/install.sh | sh`. -/
def ollamaInstallCell : List Stmt :=
  [ .basic (.shell "curl https://ollama.ai/install.sh | sh") ]

/-- Code cell: `import subprocess / import time /
process = subprocess.Popen("ollama serve", shell=True) / time.sleep(5)`. -/
def ollamaServeCell : List Stmt :=
  [ .basic (.importMod "subprocess"),
    .basic (.importMod "time"),
    .basic (.popen "process" "ollama serve"),
    .basic (.sleep 5) ]

/-- Code cell: `process = subprocess.Popen("ollama run gemma2", shell=True) /
time.sleep(5)`. -/
def ollamaRunCell : List Stmt :=
  [ .basic (.popen "process" "ollama run gemma2"),
    .basic (.sleep 5) ]

/-- Code cell: `!curl localhost:11434`. -/
def curlCheckCell : List Stmt :=
  [ .basic (.shell "curl localhost:11434") ]

/-- Code cell: `from routellm.controller import Controller /
client = Controller(routers=["bert"], strong_model="gemini/gemini-pro",
weak_model="ollama_chat/gemma2")`. -/
def controllerCell : List Stmt :=
  [ .basic (.importMod "routellm.controller"),
    .basic (.mkController "client" ["bert"] "gemini/gemini-pro"
      "ollama_chat/gemma2") ]

/-- Code cell: `!python -m routellm.calibrate_threshold --task calibrate
--routers bert --strong-model-pct 0.3 --config config.example.yaml`. -/
def calibrateCell : List Stmt :=
  [ .basic (.calibrateThreshold ["bert"] "0.3" "config.example.yaml") ]

/-- Code cell: `response = client.chat.completions.create(
model="router-bert-0.46514", messages=[...one user message "Hello!"...])`
followed by the two prints. -/
def chatCell : List Stmt :=
  [ .basic (.chatCreate "response" "router-bert-0.46514" [⟨"user", "Hello!"⟩]),
    .basic .printSelectedModel,
    .basic .printResponseContent ]

/-- All code cells of the notebook, in top-to-bottom order. -/
def notebookStmts : List Stmt :=
  credentialCell ++ dummyKeyCell ++ pipInstallCell ++ ollamaInstallCell ++
  ollamaServeCell ++ ollamaRunCell ++ curlCheckCell ++ controllerCell ++
  calibrateCell ++ chatCell

/-- Running the whole notebook top to bottom against an oracle. -/
def run (o : Oracle) : Except Failure NBState :=
  execList o initState notebookStmts

/-- The single chat request the notebook's chat cell builds. -/
def helloRequest : ChatRequest :=
  ⟨"router-bert-0.46514", [⟨"user", "Hello!"⟩]⟩

/-- All basic statements syntactically contained in a statement, including
those inside `tryExcept` bodies and handlers and `retry` bodies. -/
def Stmt.basics : Stmt → List BasicStmt
  | .basic s => [s]
  | .tryExcept body handler => body ++ handler
  | .retry _ body => body

/-- All basic statements syntactically contained in a statement list. -/
def allBasics (l : List Stmt) : List BasicStmt :=
  (l.map Stmt.basics).flatten

/-- Is this statement an error-handling construct (a `try/except` or a
retry loop)? -/
def Stmt.isErrorHandler : Stmt → Bool
  | .tryExcept _ _ => true
  | .retry _ _ => true
  | _ => false

/-- Is this an `os.environ[...] = ...` assignment? -/
def BasicStmt.isSetEnv : BasicStmt → Bool
  | .setEnv _ _ => true
  | _ => false

/-- Is this one of the notebook's three dependency-installation shell
commands (the two pip installs and the Ollama install script)? -/
def BasicStmt.isInstallStep : BasicStmt → Bool
  | .shell c =>
      c == "pip install \"routellm[serve,eval]\"" ||
      c == "pip install -q google-generativeai" ||
      c == "curl https://ollama.ai/install.sh | sh"
  | _ => false

/-- Is this a `subprocess.Popen` call (starting a background process)? -/
def BasicStmt.isPopen : BasicStmt → Bool
  | .popen _ _ => true
  | _ => false

/-- Is this a `Controller(...)` construction? -/
def BasicStmt.isMkController : BasicStmt → Bool
  | .mkController _ _ _ _ => true
  | _ => false

/-- Is this the `routellm.calibrate_threshold` invocation? -/
def BasicStmt.isCalibrate : BasicStmt → Bool
  | .calibrateThreshold _ _ _ => true
  | _ => false

/-- Is this a `client.chat.completions.create` call? -/
def BasicStmt.isChatCreate : BasicStmt → Bool
  | .chatCreate _ _ _ => true
  | _ => false

/-- Is this one of the two result-printing statements? -/
def BasicStmt.isPrintStep : BasicStmt → Bool
  | .printSelectedModel => true
  | .printResponseContent => true
  | _ => false

/-- Is this the `curl localhost:11434` server health check? -/
def BasicStmt.isHealthCheck : BasicStmt → Bool
  | .shell c => c == "curl localhost:11434"
  | _ => false

/-- Is this a process-cancellation statement (`kill`, `terminate` or
`wait` on a process handle)? -/
def BasicStmt.isProcCancel : BasicStmt → Bool
  | .procKill _ => true
  | .procTerminate _ => true
  | .procWait _ => true
  | _ => false

/-- Is this a `def` or `class` definition? -/
def BasicStmt.isDefinition : BasicStmt → Bool
  | .defFun _ => true
  | .defClass _ => true
  | _ => false

/-- Lift a basic-statement predicate to statements: does the statement
contain a basic statement satisfying it? -/
def Stmt.contains (p : BasicStmt → Bool) (s : Stmt) : Bool :=
  s.basics.any p

/-- The indices of the statements of `l` satisfying `p` (looking inside
control statements via `Stmt.contains`). -/
def idxsWhere (p : BasicStmt → Bool) (l : List Stmt) : List Nat :=
  (List.range l.length).filter fun i =>
    Stmt.contains p (l.getD i (.basic (.importMod "")))

/-- Every statement of `l` satisfying `p` comes strictly before every
statement of `l` satisfying `q`. -/
def allBefore (p q : BasicStmt → Bool) (l : List Stmt) : Bool :=
  (idxsWhere p l).all fun i => (idxsWhere q l).all fun j => decide (i < j)

/-- All `os.environ` writes of a statement list, in order: the variable
name and the assigned value (secret-store lookup or literal). -/
def envWritesOf (l : List Stmt) : List (String × EnvValue) :=
  (allBasics l).filterMap fun s =>
    match s with
    | .setEnv n v => some (n, v)
    | _ => none

/-- Does this environment value come from the Colab secret store? -/
def EnvValue.isFromSecret : EnvValue → Bool
  | .fromSecret _ => true
  | _ => false

/-- All `client.chat.completions.create` calls of a statement list, in
order, as the requests they build. -/
def chatCallsOf (l : List Stmt) : List ChatRequest :=
  (allBasics l).filterMap fun s =>
    match s with
    | .chatCreate _ m msgs => some ⟨m, msgs⟩
    | _ => none

/-- The kind of object an assignment statement binds: a `subprocess.Popen`
handle, the routing library's `Controller` client, or a chat response. -/
inductive BoundKind where
  | processHandle
  | routingClient
  | chatResponse
deriving DecidableEq, Repr

/-- All variable bindings a statement list makes, in order: the variable
name and the kind of object bound to it. -/
def bindingsOf (l : List Stmt) : List (String × BoundKind) :=
  (allBasics l).filterMap fun s =>
    match s with
    | .popen v _ => some (v, .processHandle)
    | .mkController v _ _ _ => some (v, .routingClient)
    | .chatCreate v _ _ => some (v, .chatResponse)
    | _ => none

/-- Executing an appended list runs the first part and, if it succeeds,
continues with the second part from the resulting state. -/
theorem execList_append (o : Oracle) (xs ys : List Stmt) (st : NBState) :
    execList o st (xs ++ ys) =
      match execList o st xs with
      | .ok st' => execList o st' ys
      | .error e => .error e := by
  induction xs generalizing st with
  | nil => rfl
  | cons s ss ih =>
      simp only [List.cons_append, execList]
      cases execStmt o st s with
      | ok st' => exact ih st'
      | error e => rfl

/-- The notebook statements strictly before the calibration cell. -/
def preCalibrationStmts : List Stmt :=
  credentialCell ++ dummyKeyCell ++ pipInstallCell ++ ollamaInstallCell ++
  ollamaServeCell ++ ollamaRunCell ++ curlCheckCell ++ controllerCell

/-- The notebook with the calibration statement removed and nothing else
changed. -/
def notebookStmtsWithoutCalibration : List Stmt :=
  notebookStmts.filter fun s => !(Stmt.contains BasicStmt.isCalibrate s)

/-- The two code cells that load credentials into environment variables
(the secret-store cell and the dummy-key cell). -/
def credentialStmts : List Stmt := credentialCell ++ dummyKeyCell

/-- Is this the `os.environ["OPENAI_API_KEY"] = ...` assignment? -/
def isOpenAIKeyWrite : BasicStmt → Bool
  | .setEnv n _ => n == "OPENAI_API_KEY"
  | _ => false

/-- Is this a statement that installs or invokes the routing library (the
routellm pip install, the `Controller` construction, the calibration
command, or the chat-completion call)? -/
def isRoutellmStep : BasicStmt → Bool
  | .shell c => c == "pip install \"routellm[serve,eval]\""
  | .mkController _ _ _ _ => true
  | .calibrateThreshold _ _ _ => true
  | .chatCreate _ _ _ => true
  | _ => false

/-- An oracle on which every external call succeeds: both secrets are
present, both processes start, the controller constructs, and the chat
call answers "Hello there!" from the weak model. -/
def okOracle : Oracle :=
  { userdata := fun n => if n = "HF_TOKEN" then some "hf-secret" else
      if n = "GOOGLE_API_KEY" then some "gemini-secret" else none,
    popenOk := fun _ => true,
    controllerOk := true,
    chatResult := fun _ =>
      some ⟨"ollama_chat/gemma2", [⟨⟨"assistant", "Hello there!"⟩⟩]⟩ }

/-- An oracle identical to `okOracle` except that the chat-completion call
raises. -/
def chatFailOracle : Oracle :=
  { userdata := fun n => if n = "HF_TOKEN" then some "hf-secret" else
      if n = "GOOGLE_API_KEY" then some "gemini-secret" else none,
    popenOk := fun _ => true, controllerOk := true,
    chatResult := fun _ => none }

/-- An oracle whose secret store is empty, so the very first
`userdata.get` raises. -/
def noSecretsOracle : Oracle :=
  { userdata := fun _ => none, popenOk := fun _ => true,
    controllerOk := true, chatResult := fun _ => none }

/-- On any oracle for which every external call succeeds — the two secrets
resolve to `h` and `g`, both `Popen` calls succeed, the controller
constructs, and the chat call returns `resp` whose first choice is `c` —
running the whole notebook ends in this fully determined state. -/
theorem run_ok (o : Oracle) (h g : String) (resp : ChatResponse) (c : Choice)
    (h1 : o.userdata "HF_TOKEN" = some h)
    (h2 : o.userdata "GOOGLE_API_KEY" = some g)
    (h3 : o.popenOk "ollama serve" = true)
    (h4 : o.popenOk "ollama run gemma2" = true)
    (h5 : o.controllerOk = true)
    (h6 : o.chatResult helloRequest = some resp)
    (h7 : resp.choices.head? = some c) :
    run o = .ok
      { env := [("OPENAI_API_KEY", "dummy"), ("GEMINI_API_KEY", g),
                ("HF_TOKEN", h)],
        processVar := some "ollama run gemma2",
        spawned := ["ollama serve", "ollama run gemma2"],
        client := some (["bert"], "gemini/gemini-pro", "ollama_chat/gemma2"),
        response := some resp,
        requests := [helloRequest],
        printed := ["Selected model: " ++ resp.model ++ "\n",
                    "Response: " ++ c.message.content] } := by
  simp only [helloRequest] at h6
  simp [run, notebookStmts, credentialCell, dummyKeyCell, pipInstallCell,
    ollamaInstallCell, ollamaServeCell, ollamaRunCell, curlCheckCell,
    controllerCell, calibrateCell, chatCell, execList, execStmt, execBasic,
    initState, h1, h2, h3, h4, h5, h6, h7, helloRequest]

/-- Claim C1: the notebook sends exactly one chat request — its syntactic
chat calls are exactly one call with model "router-bert-0.46514" and a
single-element message list holding one user message "Hello!" — and
afterwards, on every run in which the external calls succeed, it prints
the responding model's name (`response.model`) and the response text
(`response.choices[0].message.content`), in that order. -/
theorem chat_request_unique_and_printed :
    chatCallsOf notebookStmts = [helloRequest] ∧
    ∀ (o : Oracle) (h g : String) (resp : ChatResponse) (c : Choice),
      o.userdata "HF_TOKEN" = some h →
      o.userdata "GOOGLE_API_KEY" = some g →
      o.popenOk "ollama serve" = true →
      o.popenOk "ollama run gemma2" = true →
      o.controllerOk = true →
      o.chatResult helloRequest = some resp →
      resp.choices.head? = some c →
      ∃ st : NBState, run o = .ok st ∧
        st.requests = [helloRequest] ∧
        st.printed = ["Selected model: " ++ resp.model ++ "\n",
                      "Response: " ++ c.message.content] := by
  refine ⟨by decide, ?_⟩
  intro o h g resp c h1 h2 h3 h4 h5 h6 h7
  exact ⟨_, run_ok o h g resp c h1 h2 h3 h4 h5 h6 h7, rfl, rfl⟩

/-- Witness for claim C1: on the concrete all-success oracle, exactly the
request from the notebook is sent and the two result lines are printed. -/
theorem chat_request_unique_and_printed_witness :
    ∃ st : NBState, run okOracle = .ok st ∧
      st.requests = [helloRequest] ∧
      st.printed = ["Selected model: ollama_chat/gemma2\n",
                    "Response: Hello there!"] :=
  chat_request_unique_and_printed.2 okOracle "hf-secret" "gemini-secret"
    ⟨"ollama_chat/gemma2", [⟨⟨"assistant", "Hello there!"⟩⟩]⟩
    ⟨⟨"assistant", "Hello there!"⟩⟩ rfl rfl rfl rfl rfl rfl rfl

/-- Claim C2: in the notebook's top-to-bottom statement order, every
credential-loading statement comes before every dependency-install
statement, which comes before every background-process start, which comes
before the `Controller` construction, which comes before the calibration
command, which comes before the chat request, which comes before the
result prints; and each of these step categories is present. -/
theorem notebook_steps_strictly_ordered :
    (idxsWhere BasicStmt.isSetEnv notebookStmts ≠ []) ∧
    (idxsWhere BasicStmt.isInstallStep notebookStmts ≠ []) ∧
    (idxsWhere BasicStmt.isPopen notebookStmts ≠ []) ∧
    (idxsWhere BasicStmt.isMkController notebookStmts ≠ []) ∧
    (idxsWhere BasicStmt.isCalibrate notebookStmts ≠ []) ∧
    (idxsWhere BasicStmt.isChatCreate notebookStmts ≠ []) ∧
    (idxsWhere BasicStmt.isPrintStep notebookStmts ≠ []) ∧
    allBefore BasicStmt.isSetEnv BasicStmt.isInstallStep notebookStmts = true ∧
    allBefore BasicStmt.isInstallStep BasicStmt.isPopen notebookStmts = true ∧
    allBefore BasicStmt.isPopen BasicStmt.isMkController notebookStmts = true ∧
    allBefore BasicStmt.isMkController BasicStmt.isCalibrate notebookStmts
      = true ∧
    allBefore BasicStmt.isCalibrate BasicStmt.isChatCreate notebookStmts
      = true ∧
    allBefore BasicStmt.isChatCreate BasicStmt.isPrintStep notebookStmts
      = true := by
  decide

/-- Claim C3: each of the two background-process starts is immediately
followed by `time.sleep(5)`, and between starting the server (statement
index 10) and using it in the chat request (statement index 18) the
notebook contains no error-handling or retry construct, no process
cancellation (`kill`/`terminate`/`wait`), and performs the
`curl localhost:11434` health check exactly once — a single check, not a
polling loop (the statement language's only looping construct, `retry`,
does not occur). -/
theorem sleep_after_popen_no_retry_or_cancel :
    notebookStmts[10]? = some (.basic (.popen "process" "ollama serve")) ∧
    notebookStmts[11]? = some (.basic (.sleep 5)) ∧
    notebookStmts[12]? = some (.basic (.popen "process" "ollama run gemma2")) ∧
    notebookStmts[13]? = some (.basic (.sleep 5)) ∧
    notebookStmts[18]? = some (.basic (.chatCreate "response"
      "router-bert-0.46514" [⟨"user", "Hello!"⟩])) ∧
    ((notebookStmts.drop 11).take 7).all (fun s => !s.isErrorHandler) = true ∧
    (allBasics ((notebookStmts.drop 11).take 7)).all
      (fun b => !b.isProcCancel) = true ∧
    (allBasics ((notebookStmts.drop 11).take 7)).countP
      BasicStmt.isHealthCheck = 1 := by
  decide

/-- Claim C4: the notebook authors no error handling — no statement is a
try/except or retry construct — so a failing external call aborts the run
with that failure: a missing `HF_TOKEN` secret aborts it at the first
credential lookup, and a failing chat-completion call (all earlier calls
succeeding) aborts it with the API error, unobserved and unrecovered. -/
theorem no_error_handling_failures_propagate :
    notebookStmts.all (fun s => !s.isErrorHandler) = true ∧
    (∀ o : Oracle, o.userdata "HF_TOKEN" = none →
      run o = .error (.secretNotFound "HF_TOKEN")) ∧
    (∀ (o : Oracle) (h g : String),
      o.userdata "HF_TOKEN" = some h →
      o.userdata "GOOGLE_API_KEY" = some g →
      o.popenOk "ollama serve" = true →
      o.popenOk "ollama run gemma2" = true →
      o.controllerOk = true →
      o.chatResult helloRequest = none →
      run o = .error (.apiError helloRequest)) := by
  refine ⟨by decide, ?_, ?_⟩
  · intro o h1
    simp [run, notebookStmts, credentialCell, dummyKeyCell, pipInstallCell,
      ollamaInstallCell, ollamaServeCell, ollamaRunCell, curlCheckCell,
      controllerCell, calibrateCell, chatCell, execList, execStmt, execBasic,
      initState, h1]
  · intro o h g h1 h2 h3 h4 h5 h6
    simp only [helloRequest] at h6
    simp [run, notebookStmts, credentialCell, dummyKeyCell, pipInstallCell,
      ollamaInstallCell, ollamaServeCell, ollamaRunCell, curlCheckCell,
      controllerCell, calibrateCell, chatCell, execList, execStmt, execBasic,
      initState, h1, h2, h3, h4, h5, h6, helloRequest]

/-- Witness for claim C4: on the concrete empty-secret-store oracle the run
aborts at the first credential lookup, and on the concrete oracle whose
chat call fails the run aborts with the API error. -/
theorem no_error_handling_failures_propagate_witness :
    run noSecretsOracle = .error (.secretNotFound "HF_TOKEN") ∧
    run chatFailOracle = .error (.apiError helloRequest) :=
  ⟨no_error_handling_failures_propagate.2.1 noSecretsOracle rfl,
   no_error_handling_failures_propagate.2.2 chatFailOracle "hf-secret"
     "gemini-secret" rfl rfl rfl rfl rfl rfl⟩

/-- Counterexample to claim C5 as stated: the notebook writes a third
environment variable, `OPENAI_API_KEY`, whose value is the string literal
"dummy" and not a credential obtained from the user's secret store. -/
theorem env_writes_include_dummy_openai_key :
    ("OPENAI_API_KEY", EnvValue.literal "dummy") ∈ envWritesOf notebookStmts ∧
    EnvValue.isFromSecret (EnvValue.literal "dummy") = false ∧
    (envWritesOf notebookStmts).length = 3 := by decide

/-- Claim C5 as amended: the notebook writes exactly three environment
variables — `HF_TOKEN` and `GEMINI_API_KEY` holding the two secret-store
credentials, plus `OPENAI_API_KEY` holding the literal placeholder
"dummy" — and exactly two of the writes come from the secret store. -/
theorem env_writes_exactly_three :
    envWritesOf notebookStmts =
      [("HF_TOKEN", .fromSecret "HF_TOKEN"),
       ("GEMINI_API_KEY", .fromSecret "GOOGLE_API_KEY"),
       ("OPENAI_API_KEY", .literal "dummy")] ∧
    (envWritesOf notebookStmts).countP (fun w => w.2.isFromSecret) = 2 := by
  decide

/-- Claim C6: the notebook contains exactly one calibration statement, the
chat call it makes is syntactically identical with or without that
statement, and on every oracle the run of the notebook without the
calibration statement is equal — final state, requests, prints and all —
to the run of the full notebook, because the calibration shell command's
numeric output is never read and the chat call's model argument is the
fixed literal "router-bert-0.46514". -/
theorem calibration_has_no_effect_on_chat :
    notebookStmts.countP (Stmt.contains BasicStmt.isCalibrate) = 1 ∧
    chatCallsOf notebookStmtsWithoutCalibration = chatCallsOf notebookStmts ∧
    ∀ o : Oracle,
      execList o initState notebookStmtsWithoutCalibration = run o := by
  refine ⟨by decide, by decide, ?_⟩
  intro o
  have h1 : notebookStmts = (preCalibrationStmts ++ calibrateCell) ++ chatCell :=
    rfl
  have h2 : notebookStmtsWithoutCalibration = preCalibrationStmts ++ chatCell :=
    rfl
  simp only [run]
  rw [h1, h2, execList_append o preCalibrationStmts chatCell initState,
    execList_append o (preCalibrationStmts ++ calibrateCell) chatCell initState,
    execList_append o preCalibrationStmts calibrateCell initState]
  cases execList o initState preCalibrationStmts with
  | error e => rfl
  | ok st' => rfl

/-- Counterexample to claim C7 as stated: the notebook also binds the
variable `process` to a `subprocess.Popen` handle, which is neither a
routing client instance nor a chat response object. -/
theorem process_binding_not_client_or_response :
    ("process", BoundKind.processHandle) ∈ bindingsOf notebookStmts ∧
    BoundKind.processHandle ≠ BoundKind.routingClient ∧
    BoundKind.processHandle ≠ BoundKind.chatResponse := by decide

/-- Claim C7 as amended: every object the notebook binds is an
externally-defined object — two `subprocess.Popen` process handles bound
to `process`, the routing client bound to `client`, and the chat response
bound to `response` — and the notebook defines no function or class of its
own. -/
theorem bindings_all_external :
    bindingsOf notebookStmts =
      [("process", .processHandle), ("process", .processHandle),
       ("client", .routingClient), ("response", .chatResponse)] ∧
    (allBasics notebookStmts).countP BasicStmt.isDefinition = 0 := by decide

/-- Claim C8: for every pair of secret values `(h, g)`, after the
credential-loading cells the environment maps `HF_TOKEN` (same name as its
secret) to `h` and `GEMINI_API_KEY` (renamed from the `GOOGLE_API_KEY`
secret) to `g`, no environment variable named `GOOGLE_API_KEY` is set, and
no statement of the whole notebook ever writes one. -/
theorem secrets_renamed_into_env (o : Oracle) (h g : String)
    (h1 : o.userdata "HF_TOKEN" = some h)
    (h2 : o.userdata "GOOGLE_API_KEY" = some g) :
    (∃ st : NBState, execList o initState credentialStmts = .ok st ∧
      st.env.lookup "HF_TOKEN" = some h ∧
      st.env.lookup "GEMINI_API_KEY" = some g ∧
      st.env.lookup "GOOGLE_API_KEY" = none) ∧
    (envWritesOf notebookStmts).all (fun w => w.1 != "GOOGLE_API_KEY")
      = true := by
  refine ⟨⟨{ initState with env := [("OPENAI_API_KEY", "dummy"),
    ("GEMINI_API_KEY", g), ("HF_TOKEN", h)] }, ?_, rfl, rfl, rfl⟩, by decide⟩
  simp [credentialStmts, credentialCell, dummyKeyCell, execList, execStmt,
    execBasic, initState, h1, h2]

/-- Witness for claim C8: on the concrete all-success oracle the
environment after the credential cells maps `HF_TOKEN` and
`GEMINI_API_KEY` to the two stored secrets and has no `GOOGLE_API_KEY`. -/
theorem secrets_renamed_into_env_witness :
    (∃ st : NBState, execList okOracle initState credentialStmts = .ok st ∧
      st.env.lookup "HF_TOKEN" = some "hf-secret" ∧
      st.env.lookup "GEMINI_API_KEY" = some "gemini-secret" ∧
      st.env.lookup "GOOGLE_API_KEY" = none) ∧
    (envWritesOf notebookStmts).all (fun w => w.1 != "GOOGLE_API_KEY")
      = true :=
  secrets_renamed_into_env okOracle "hf-secret" "gemini-secret" rfl rfl

/-- Claim C9: statement 4 of the notebook sets `OPENAI_API_KEY` to the
constant literal "dummy"; it is the only write to that variable; it comes
before every statement that installs or invokes the routing library; and
its effect is the same on every oracle and every state — it reads no
secret and no prior state, so no real OpenAI credential is required. -/
theorem openai_key_constant_dummy_before_routellm :
    notebookStmts[4]? = some (.basic (.setEnv "OPENAI_API_KEY"
      (.literal "dummy"))) ∧
    (envWritesOf notebookStmts).countP (fun w => w.1 == "OPENAI_API_KEY")
      = 1 ∧
    (idxsWhere isRoutellmStep notebookStmts ≠ []) ∧
    allBefore isOpenAIKeyWrite isRoutellmStep notebookStmts = true ∧
    (∀ (o : Oracle) (st : NBState),
      execStmt o st (.basic (.setEnv "OPENAI_API_KEY" (.literal "dummy"))) =
        .ok { st with env := ("OPENAI_API_KEY", "dummy") :: st.env }) := by
  refine ⟨by decide, by decide, by decide, by decide, ?_⟩
  intro o st
  rfl

/-- Claim C10: the notebook contains no `kill`, `terminate` or `wait` on
any process handle; the `process` variable is bound at statement 10 to the
`ollama serve` handle and rebound at statement 12 to the `ollama run
gemma2` handle; and on every successful run the final state retains only
the `ollama run gemma2` handle in `process`, although both commands were
spawned. -/
theorem process_var_overwritten_never_killed :
    (allBasics notebookStmts).countP BasicStmt.isProcCancel = 0 ∧
    notebookStmts[10]? = some (.basic (.popen "process" "ollama serve")) ∧
    notebookStmts[12]? = some (.basic (.popen "process" "ollama run gemma2")) ∧
    ∀ (o : Oracle) (h g : String) (resp : ChatResponse) (c : Choice),
      o.userdata "HF_TOKEN" = some h →
      o.userdata "GOOGLE_API_KEY" = some g →
      o.popenOk "ollama serve" = true →
      o.popenOk "ollama run gemma2" = true →
      o.controllerOk = true →
      o.chatResult helloRequest = some resp →
      resp.choices.head? = some c →
      ∃ st : NBState, run o = .ok st ∧
        st.processVar = some "ollama run gemma2" ∧
        st.spawned = ["ollama serve", "ollama run gemma2"] := by
  refine ⟨by decide, by decide, by decide, ?_⟩
  intro o h g resp c h1 h2 h3 h4 h5 h6 h7
  exact ⟨_, run_ok o h g resp c h1 h2 h3 h4 h5 h6 h7, rfl, rfl⟩

/-- Witness for claim C10: on the concrete all-success oracle the final
state's `process` variable holds the `ollama run gemma2` handle while both
background commands were spawned and neither was ever cancelled. -/
theorem process_var_overwritten_never_killed_witness :
    ∃ st : NBState, run okOracle = .ok st ∧
      st.processVar = some "ollama run gemma2" ∧
      st.spawned = ["ollama serve", "ollama run gemma2"] :=
  process_var_overwritten_never_killed.2.2.2 okOracle "hf-secret"
    "gemini-secret" ⟨"ollama_chat/gemma2", [⟨⟨"assistant", "Hello there!"⟩⟩]⟩
    ⟨⟨"assistant", "Hello there!"⟩⟩ rfl rfl rfl rfl rfl rfl rfl

end RouteLLMNotebook
